import Mathlib

/-!
Verification of the schema catalog engine of the cloud-spanner-emulator
repository (DDL application: CREATE/DROP TABLE, CREATE/DROP INDEX,
index materialization, interleaving validation, batch atomicity).

The schema updater implementation itself is not present in the source
tree that was provided (only its test file
`backend/schema/updater/schema_updater_tests/index.cc` is), so the
operations are modelled from the specification document, cross-checked
against the expectations asserted by that test file.
-/

namespace Emulator

/-- Modelled from the spec: the dialect parameter, an enum selected once
per database (`STANDARD` / `POSTGRESQL_COMPATIBLE`), threaded into the
key-ordering defaults. -/
inductive Dialect where
  | standard
  | postgresql
deriving DecidableEq

/-- Modelled from the spec: semantic column types produced by the type
oracle (scalar types plus array-of-element; the test file exercises
INT64, STRING, BYTES, NUMERIC, JSON and ARRAY<INT64>). -/
inductive ColumnType where
  | int64
  | string
  | bytes
  | numeric
  | json
  | array (elem : ColumnType)
deriving DecidableEq

/-- The user-visible name of a type, as it appears in the
`CannotCreateIndexOnColumn` error (the tests expect "ARRAY" and "JSON"). -/
def ColumnType.typeName : ColumnType → String
  | .int64 => "INT64"
  | .string => "STRING"
  | .bytes => "BYTES"
  | .numeric => "NUMERIC"
  | .json => "JSON"
  | .array _ => "ARRAY"

/-- Modelled from the spec: the disallowed set of index key column types —
arrays are disallowed as key columns; JSON is disallowed as key column
even if nominally indexable. -/
def ColumnType.isDisallowedKeyType : ColumnType → Bool
  | .array _ => true
  | .json => true
  | _ => false

/-- Modelled from the spec: a Column has a name, a semantic type, a
nullability flag, and (for columns of an index-data-table) a weak
reference to the source column it was copied from. -/
structure Column where
  name : String
  type : ColumnType
  nullable : Bool
  sourceColumn : Option String := none
deriving DecidableEq

/-- Explicit key direction in a key spec of the input AST. -/
inductive KeyDir where
  | asc
  | desc
deriving DecidableEq

/-- A (column, optional direction) key spec as it appears in a CREATE
TABLE primary key clause or a CREATE INDEX key list; `none` means the
direction was unspecified and the dialect default applies. -/
structure KeySpec where
  column : String
  dir : Option KeyDir
deriving DecidableEq

/-- Modelled from the spec: a KeyPart is a weak reference to a Column
plus ordering (ascending/descending) and null-ordering
(nulls-first/nulls-last). -/
structure KeyPart where
  column : String
  descending : Bool
  nullsLast : Bool
deriving DecidableEq

/-- Interleaving on-delete action. -/
inductive OnDeleteAction where
  | cascade
  | noAction
deriving DecidableEq

/-- Modelled from the spec: a Table has a name, ordered columns, an
ordered primary key (sequence of KeyPart), an optional interleave
parent with an on-delete action, and an optional owning index (set when
the table is the synthetic backing table of an index, in which case it
is not independently discoverable by name). -/
structure Table where
  name : String
  columns : List Column
  primaryKey : List KeyPart
  parent : Option String := none
  onDelete : OnDeleteAction := .noAction
  ownerIndex : Option String := none
deriving DecidableEq

/-- Modelled from the spec: an Index has a name, a weak reference to its
indexed table, ordered key columns, stored columns (exposed in
declaration order), uniqueness and null-filtering flags, an optional
interleave parent, and an exclusively-owned index-data-table. -/
structure Index where
  name : String
  indexedTable : String
  keyColumns : List KeyPart
  storedColumns : List Column
  isUnique : Bool
  isNullFiltered : Bool
  parent : Option String
  indexDataTable : Table
deriving DecidableEq

/-- Modelled from the spec: a Schema snapshot is a mapping from table
name to Table and from index name to Index (both kept here as insertion-
ordered lists, matching the stable-insertion-order introspection
surface). Index-data-tables live inside their owning Index, so they are
not discoverable through `FindTable`. -/
structure Schema where
  tables : List Table
  indexes : List Index
deriving DecidableEq

/-- `FindTable(name)`: case-sensitive lookup of a table by name. -/
def Schema.FindTable (s : Schema) (n : String) : Option Table :=
  s.tables.find? (fun t => t.name == n)

/-- `FindIndex(name)`: case-sensitive lookup of an index by name. -/
def Schema.FindIndex (s : Schema) (n : String) : Option Index :=
  s.indexes.find? (fun i => i.name == n)

/-- Case-sensitive lookup of a column of a table by name. -/
def Table.FindColumn (t : Table) (n : String) : Option Column :=
  t.columns.find? (fun c => c.name == n)

/-- Modelled from the spec: the structured error taxonomy of the catalog,
each kind carrying the offending identifiers as structured fields. -/
inductive SchemaError where
  | tableNotFound (name : String)
  | indexNotFound (name : String)
  | duplicateName (name : String)
  | indexWithNoKeys (index : String)
  | indexRefsNonExistentColumn (index : String) (column : String)
  | indexRefsColumnTwice (index : String) (column : String)
  | indexRefsKeyAsStoredColumn (index : String) (column : String)
  | cannotCreateIndexOnColumn (index : String) (column : String) (typeName : String)
  | indexInterleaveTableUnacceptable (index : String) (table : String) (parent : String)
  | dropTableWithDependentIndices (table : String) (index : String)
deriving DecidableEq

/-- A column definition in a CREATE TABLE statement. -/
structure ColumnDef where
  name : String
  type : ColumnType
  notNull : Bool
deriving DecidableEq

/-- The CREATE TABLE statement AST (name, column definitions, primary
key specs, optional INTERLEAVE IN PARENT clause). -/
structure CreateTableStmt where
  name : String
  columns : List ColumnDef
  primaryKey : List KeySpec
  interleaveInParent : Option (String × OnDeleteAction) := none
deriving DecidableEq

/-- Modelled from the spec: the CREATE INDEX statement AST — index name,
target table name, ordered key specs, optional STORING column list,
UNIQUE / NULL_FILTERED flags, optional INTERLEAVE IN clause, and the
IF NOT EXISTS flag. -/
structure CreateIndexStmt where
  name : String
  table : String
  keys : List KeySpec
  storing : List String := []
  unique : Bool := false
  nullFiltered : Bool := false
  interleaveIn : Option String := none
  ifNotExists : Bool := false
deriving DecidableEq

/-- The DDL statement variants exercised by the index tests. -/
inductive DDLStatement where
  | createTable (ct : CreateTableStmt)
  | createIndex (ci : CreateIndexStmt)
  | dropTable (name : String)
  | dropIndex (name : String) (ifExists : Bool)
deriving DecidableEq

/-- Modelled from the spec: interpretation of one key spec into a
KeyPart. When the direction is unspecified the dialect default applies
per key part: the default (standard) dialect orders ascending with
nulls-first; the PostgreSQL-compatible dialect orders ascending with
nulls-last. An explicit DESC yields descending with nulls-last and an
explicit ASC ascending with nulls-first, matching the expectations of
the CreateIndex_DescKeys / CreateIndex_AscKeys tests. -/
def interpretKeySpec (d : Dialect) (ks : KeySpec) : KeyPart :=
  match ks.dir with
  | some .asc => { column := ks.column, descending := false, nullsLast := false }
  | some .desc => { column := ks.column, descending := true, nullsLast := true }
  | none => { column := ks.column, descending := false, nullsLast := d == .postgresql }

/-- The names of the declared key columns of an index, in declared order. -/
def keyNames (keys : List KeySpec) : List String :=
  keys.map (fun ks => ks.column)

/-- First referenced column (among key and storing references) that does
not exist on the target table, if any. -/
def firstMissingColumn (t : Table) (cols : List String) : Option String :=
  cols.find? (fun c => (t.FindColumn c).isNone)

/-- First column name that appears twice in the list, if any. -/
def firstDuplicate : List String → Option String
  | [] => none
  | c :: rest => if rest.contains c then some c else firstDuplicate rest

/-- First STORING column that duplicates a key column, if any. -/
def firstStoredKeyDup (keys stored : List String) : Option String :=
  stored.find? (fun c => keys.contains c)

/-- First declared key column whose type is in the disallowed set,
together with the offending type name, if any. -/
def firstBadKeyType (t : Table) : List String → Option (String × String)
  | [] => none
  | c :: rest =>
    match t.FindColumn c with
    | none => firstBadKeyType t rest
    | some col =>
      if col.type.isDisallowedKeyType then some (c, col.type.typeName)
      else firstBadKeyType t rest

/-- The chain of ancestors reached by following `parent` references,
bounded by a fuel argument to guarantee termination on arbitrary
graphs. -/
def parentChain (s : Schema) : Nat → Option String → List String
  | _, none => []
  | 0, some _ => []
  | fuel + 1, some n =>
    match s.FindTable n with
    | none => []
    | some t => n :: parentChain s fuel t.parent

/-- The names in the chain of parents of table `tn` (nearest parent
first), not including `tn` itself. -/
def ancestorsOf (s : Schema) (tn : String) : List String :=
  match s.FindTable tn with
  | none => []
  | some t => parentChain s s.tables.length t.parent

/-- Modelled from the spec: acceptability of an `INTERLEAVE IN p` clause
on an index over table `tn` — `p` must be in the interleaving ancestry
of `tn`. The DropTable_WithIndex test creates `CREATE INDEX Idx2 ON
T(k1), INTERLEAVE IN T` successfully, so the indexed table itself is
acceptable in addition to its proper ancestors. -/
def interleaveOk (s : Schema) (p tn : String) : Bool :=
  p == tn || (ancestorsOf s tn).contains p

/-- A copy of a source-table column attached to an index (data table or
stored column), retaining name, type and nullability and recording the
source column. -/
def copyColumn (c : Column) : Column :=
  { name := c.name, type := c.type, nullable := c.nullable, sourceColumn := some c.name }

/-- The primary-key parts appended to an index's declared keys: the
source table's primary-key parts whose columns are not already among
the declared key columns, in the source table's own key order. -/
def appendedPK (t : Table) (kn : List String) : List KeyPart :=
  t.primaryKey.filter (fun kp => !(kn.contains kp.column))

/-- Modelled from the spec: the synthetic index-data-table of an index —
its primary key is the declared key parts (in declared order) followed
by the source table's primary-key parts not already present (in the
source table's own key order); its columns are copies of the declared
key columns (forced non-nullable when the index is null-filtered),
then copies of the appended primary-key columns and of the STORING
columns (both retaining the source column's nullability). It is
interleaved under the INTERLEAVE IN parent with on-delete cascade when
that clause is present. -/
def buildIndexDataTable (d : Dialect) (t : Table) (ci : CreateIndexStmt) : Table :=
  let kn := keyNames ci.keys
  { name := "_index_data_" ++ ci.name,
    columns :=
      (kn.filterMap t.FindColumn).map (fun c =>
        { name := c.name, type := c.type,
          nullable := !ci.nullFiltered && c.nullable,
          sourceColumn := some c.name })
      ++ ((appendedPK t kn).filterMap (fun kp => t.FindColumn kp.column)).map copyColumn
      ++ (ci.storing.filterMap t.FindColumn).map copyColumn,
    primaryKey := ci.keys.map (interpretKeySpec d) ++ appendedPK t kn,
    parent := ci.interleaveIn,
    onDelete := if ci.interleaveIn.isSome then .cascade else .noAction,
    ownerIndex := some ci.name }

/-- Modelled from the spec: the Index node constructed by a successful
CREATE INDEX. -/
def buildIndex (d : Dialect) (t : Table) (ci : CreateIndexStmt) : Index :=
  { name := ci.name,
    indexedTable := t.name,
    keyColumns := ci.keys.map (interpretKeySpec d),
    storedColumns := (ci.storing.filterMap t.FindColumn).map copyColumn,
    isUnique := ci.unique,
    isNullFiltered := ci.nullFiltered,
    parent := ci.interleaveIn,
    indexDataTable := buildIndexDataTable d t ci }

/-- Add a freshly built index to a schema. -/
def addIndex (s : Schema) (idx : Index) : Schema :=
  { tables := s.tables, indexes := s.indexes ++ [idx] }

/-- Modelled from the spec: the CREATE INDEX handler, performing the
validations in the spec's order — target table existence, the
IF NOT EXISTS no-op, non-empty key list, key/storing column existence
(case-sensitive), duplicate key columns, STORING duplicating a key,
disallowed key column types, and interleave-parent acceptability — and
on success constructing the Index with its index-data-table. -/
def applyCreateIndex (d : Dialect) (s : Schema) (ci : CreateIndexStmt) :
    Except SchemaError Schema :=
  match s.FindTable ci.table with
  | none => .error (.tableNotFound ci.table)
  | some t =>
    match s.FindIndex ci.name with
    | some _ =>
      if ci.ifNotExists then .ok s else .error (.duplicateName ci.name)
    | none =>
      if ci.keys.isEmpty then .error (.indexWithNoKeys ci.name)
      else
        match firstMissingColumn t (keyNames ci.keys ++ ci.storing) with
        | some c => .error (.indexRefsNonExistentColumn ci.name c)
        | none =>
          match firstDuplicate (keyNames ci.keys) with
          | some c => .error (.indexRefsColumnTwice ci.name c)
          | none =>
            match firstStoredKeyDup (keyNames ci.keys) ci.storing with
            | some c => .error (.indexRefsKeyAsStoredColumn ci.name c)
            | none =>
              match firstBadKeyType t (keyNames ci.keys) with
              | some ctn => .error (.cannotCreateIndexOnColumn ci.name ctn.1 ctn.2)
              | none =>
                match ci.interleaveIn with
                | some p =>
                  if interleaveOk s p ci.table then
                    .ok (addIndex s (buildIndex d t ci))
                  else .error (.indexInterleaveTableUnacceptable ci.name ci.table p)
                | none => .ok (addIndex s (buildIndex d t ci))

/-- Modelled from the spec: the CREATE TABLE handler (enough of it to
build the schemas the index tests use): rejects a duplicate table name,
requires an interleave parent to exist, and otherwise adds the table
with its columns and interpreted primary key. -/
def applyCreateTable (d : Dialect) (s : Schema) (ct : CreateTableStmt) :
    Except SchemaError Schema :=
  if (s.FindTable ct.name).isSome then .error (.duplicateName ct.name)
  else
    let cols : List Column :=
      ct.columns.map (fun cd =>
        { name := cd.name, type := cd.type, nullable := !cd.notNull })
    let pk := ct.primaryKey.map (interpretKeySpec d)
    match ct.interleaveInParent with
    | none =>
      .ok { tables := s.tables ++
              [{ name := ct.name, columns := cols, primaryKey := pk }],
            indexes := s.indexes }
    | some pod =>
      if (s.FindTable pod.1).isSome then
        .ok { tables := s.tables ++
                [{ name := ct.name, columns := cols, primaryKey := pk,
                   parent := some pod.1, onDelete := pod.2 }],
              indexes := s.indexes }
      else .error (.tableNotFound pod.1)

/-- Modelled from the spec: the DROP TABLE handler — fails with
`DropTableWithDependentIndices` naming the table and the first
dependent index if any index, global or interleaved, has this table as
its indexed table or as its index-data-table's interleave parent; on
success removes the table. -/
def applyDropTable (s : Schema) (tn : String) : Except SchemaError Schema :=
  match s.FindTable tn with
  | none => .error (.tableNotFound tn)
  | some _ =>
    match s.indexes.find? (fun i =>
        i.indexedTable == tn || i.indexDataTable.parent == some tn) with
    | some i => .error (.dropTableWithDependentIndices tn i.name)
    | none => .ok { tables := s.tables.filter (fun t => t.name != tn),
                    indexes := s.indexes }

/-- Modelled from the spec: the DROP INDEX handler — removes the Index
node (and with it its owned index-data-table); IF EXISTS on a missing
index is a no-op; absence without IF EXISTS is `IndexNotFound`;
resolution is case-sensitive. -/
def applyDropIndex (s : Schema) (n : String) (ifExists : Bool) :
    Except SchemaError Schema :=
  match s.FindIndex n with
  | none => if ifExists then .ok s else .error (.indexNotFound n)
  | some _ => .ok { tables := s.tables,
                    indexes := s.indexes.filter (fun i => i.name != n) }

/-- Dispatch of one DDL statement to its handler. -/
def applyStatement (d : Dialect) (s : Schema) : DDLStatement → Except SchemaError Schema
  | .createTable ct => applyCreateTable d s ct
  | .createIndex ci => applyCreateIndex d s ci
  | .dropTable tn => applyDropTable s tn
  | .dropIndex n ife => applyDropIndex s n ife

/-- Modelled from the spec: batch application — statements are applied
one at a time against a working copy; the first failing statement
aborts the whole batch with its error. -/
def applyBatch (d : Dialect) (s : Schema) : List DDLStatement → Except SchemaError Schema
  | [] => .ok s
  | st :: rest =>
    match applyStatement d s st with
    | .error e => .error e
    | .ok s2 => applyBatch d s2 rest

/-- Modelled from the spec: the live schema after attempting a batch —
the sealed new snapshot on success, the unchanged prior snapshot on
failure (all-or-nothing batch semantics). -/
def updateSchema (d : Dialect) (s : Schema) (stmts : List DDLStatement) : Schema :=
  match applyBatch d s stmts with
  | .ok s2 => s2
  | .error _ => s

/-- Whether a batch outcome is a success. -/
def isOkE : Except SchemaError Schema → Bool
  | .ok _ => true
  | .error _ => false

/-- The empty schema a database starts from. -/
def emptySchema : Schema := { tables := [], indexes := [] }

-- Concrete scenario: an ARRAY<INT64> column is accepted in STORING(...)
-- (test CreateIndex_ArrayStoredColumn).
def arrayStoringBatch : List DDLStatement :=
  [.createTable
     { name := "T",
       columns := [⟨"k1", .int64, false⟩, ⟨"c1", .int64, false⟩,
                   ⟨"c2", .array .int64, false⟩],
       primaryKey := [⟨"k1", none⟩] },
   .createIndex { name := "Idx", table := "T", keys := [⟨"c1", none⟩],
                  storing := ["c2"] }]

-- Concrete scenario: an ARRAY<INT64> key column is rejected
-- (test CreateIndex_UnsupportedArrayTypeKeyColumn).
def tArrStmt : CreateTableStmt :=
  { name := "T", columns := [⟨"k1", .int64, false⟩, ⟨"c1", .array .int64, false⟩],
    primaryKey := [⟨"k1", none⟩] }

def ciArrKey : CreateIndexStmt :=
  { name := "Idx", table := "T", keys := [⟨"c1", none⟩] }

def sArr : Schema := updateSchema .standard emptySchema [.createTable tArrStmt]

def tArr : Table :=
  { name := "T",
    columns := [{ name := "k1", type := .int64, nullable := true },
                { name := "c1", type := .array .int64, nullable := true }],
    primaryKey := [{ column := "k1", descending := false, nullsLast := false }] }

-- Concrete scenario: table T1; table T2 with primary key (k1, k2) but NOT
-- interleaved in T1; CREATE INDEX Idx ON T2(k1, c1), INTERLEAVE IN T1
-- (test CreateIndex_InvalidInterleaved).
def t1Stmt : CreateTableStmt :=
  { name := "T1", columns := [⟨"k1", .int64, false⟩, ⟨"k2", .int64, false⟩],
    primaryKey := [⟨"k1", none⟩] }

def t2FlatStmt : CreateTableStmt :=
  { name := "T2",
    columns := [⟨"k1", .int64, false⟩, ⟨"k2", .int64, false⟩, ⟨"c1", .bytes, false⟩],
    primaryKey := [⟨"k1", none⟩, ⟨"k2", none⟩] }

def ciInvalidInt : CreateIndexStmt :=
  { name := "Idx", table := "T2", keys := [⟨"k1", none⟩, ⟨"c1", none⟩],
    interleaveIn := some "T1" }

def sFlat : Schema :=
  updateSchema .standard emptySchema [.createTable t1Stmt, .createTable t2FlatStmt]

def tT2Flat : Table :=
  { name := "T2",
    columns := [{ name := "k1", type := .int64, nullable := true },
                { name := "k2", type := .int64, nullable := true },
                { name := "c1", type := .bytes, nullable := true }],
    primaryKey := [{ column := "k1", descending := false, nullsLast := false },
                   { column := "k2", descending := false, nullsLast := false }] }

-- Concrete scenario: an index on table T interleaved in T itself succeeds
-- even though T is not in T's own chain of parents
-- (test DropTable_WithIndex, second half).
def tGStmt : CreateTableStmt :=
  { name := "T", columns := [⟨"k1", .int64, false⟩, ⟨"c1", .int64, false⟩],
    primaryKey := [⟨"k1", some .asc⟩] }

def ciSelfInt : CreateIndexStmt :=
  { name := "Idx2", table := "T", keys := [⟨"k1", none⟩], interleaveIn := some "T" }

def sG : Schema := updateSchema .standard emptySchema [.createTable tGStmt]

-- Concrete scenario: table T with columns k1, k2, c1 and index Idx1
-- (SchemaForCaseSensitivityTests).
def csTableStmt : CreateTableStmt :=
  { name := "T",
    columns := [⟨"k1", .int64, true⟩, ⟨"k2", .int64, true⟩, ⟨"c1", .string, false⟩],
    primaryKey := [⟨"k1", none⟩] }

def csSchema : Schema :=
  updateSchema .standard emptySchema
    [.createTable csTableStmt,
     .createIndex { name := "Idx1", table := "T", keys := [⟨"c1", none⟩] }]

-- Concrete scenario: CREATE INDEX Idx ON T(c1, k1) with unspecified key
-- directions, PostgreSQL-compatible dialect (test CreateIndex_AscKeys).
def tpgStmt : CreateTableStmt :=
  { name := "T", columns := [⟨"k1", .int64, false⟩, ⟨"c1", .int64, false⟩],
    primaryKey := [⟨"k1", none⟩] }

def cipg : CreateIndexStmt :=
  { name := "Idx", table := "T", keys := [⟨"c1", none⟩, ⟨"k1", none⟩] }

def spg : Schema := updateSchema .postgresql emptySchema [.createTable tpgStmt]

def tpg : Table :=
  { name := "T",
    columns := [{ name := "k1", type := .int64, nullable := true },
                { name := "c1", type := .int64, nullable := true }],
    primaryKey := [{ column := "k1", descending := false, nullsLast := true }] }

def s1pg : Schema := updateSchema .postgresql spg [.createIndex cipg]

def idxpg : Index := buildIndex .postgresql tpg cipg

-- Concrete scenario: CREATE INDEX IF NOT EXISTS Idx ON T(c1) applied twice
-- (test CreateIndexIfNotExistsOnExistingIndex).
def ci9 : CreateIndexStmt :=
  { name := "Idx", table := "T", keys := [⟨"c1", none⟩], ifNotExists := true }

def s9 : Schema := updateSchema .standard emptySchema [.createTable tGStmt]

def s19 : Schema := updateSchema .standard s9 [.createIndex ci9]

-- Concrete scenario: CREATE INDEX Idx ON T(c1 DESC, k1 DESC), standard
-- dialect (test CreateIndex_DescKeys).
def ciDesc : CreateIndexStmt :=
  { name := "Idx", table := "T",
    keys := [⟨"c1", some .desc⟩, ⟨"k1", some .desc⟩] }

def sDesc : Schema :=
  updateSchema .standard emptySchema [.createTable tGStmt, .createIndex ciDesc]

-- Concrete scenario: T(k1 INT64 NOT NULL, c1 STRING) PRIMARY KEY (k1),
-- CREATE INDEX Idx1 ON T(c1) (test CreateIndex / spec Key-PK derivation).
def tBasicStmt : CreateTableStmt :=
  { name := "T", columns := [⟨"k1", .int64, true⟩, ⟨"c1", .string, false⟩],
    primaryKey := [⟨"k1", none⟩] }

def ciBasic : CreateIndexStmt :=
  { name := "Idx1", table := "T", keys := [⟨"c1", none⟩] }

def sBasic : Schema := updateSchema .standard emptySchema [.createTable tBasicStmt]

def tBasic : Table :=
  { name := "T",
    columns := [{ name := "k1", type := .int64, nullable := false },
                { name := "c1", type := .string, nullable := true }],
    primaryKey := [{ column := "k1", descending := false, nullsLast := false }] }

def s1Basic : Schema := updateSchema .standard sBasic [.createIndex ciBasic]

def idxBasic : Index := buildIndex .standard tBasic ciBasic

-- Concrete scenario: CREATE UNIQUE NULL_FILTERED INDEX Idx ON T(c1)
-- STORING(c2, c3) where c1 is nullable (test CreateIndex_NullFiltered_Unique).
def tnfStmt : CreateTableStmt :=
  { name := "T",
    columns := [⟨"k1", .int64, false⟩, ⟨"c1", .string, false⟩,
                ⟨"c2", .string, false⟩, ⟨"c3", .string, true⟩],
    primaryKey := [⟨"k1", none⟩] }

def cinf : CreateIndexStmt :=
  { name := "Idx", table := "T", keys := [⟨"c1", none⟩],
    storing := ["c2", "c3"], unique := true, nullFiltered := true }

def snf : Schema := updateSchema .standard emptySchema [.createTable tnfStmt]

def tnf : Table :=
  { name := "T",
    columns := [{ name := "k1", type := .int64, nullable := true },
                { name := "c1", type := .string, nullable := true },
                { name := "c2", type := .string, nullable := true },
                { name := "c3", type := .string, nullable := false }],
    primaryKey := [{ column := "k1", descending := false, nullsLast := false }] }

def s1nf : Schema := updateSchema .standard snf [.createIndex cinf]

def idxnf : Index := buildIndex .standard tnf cinf

def cnfKey : Column :=
  { name := "c1", type := .string, nullable := false, sourceColumn := some "c1" }

def tG : Table :=
  { name := "T",
    columns := [{ name := "k1", type := .int64, nullable := true },
                { name := "c1", type := .int64, nullable := true }],
    primaryKey := [{ column := "k1", descending := false, nullsLast := false }] }

def idxDesc : Index := buildIndex .standard tG ciDesc

theorem interpretKeySpec_column (d : Dialect) (ks : KeySpec) :
    (interpretKeySpec d ks).column = ks.column := by
  cases h : ks.dir with
  | none => simp [interpretKeySpec, h]
  | some dir => cases dir <;> simp [interpretKeySpec, h]

theorem Schema.FindTable_addIndex (s : Schema) (idx : Index) (n : String) :
    (addIndex s idx).FindTable n = s.FindTable n := rfl

theorem Schema.FindIndex_addIndex (s : Schema) (idx : Index)
    (h : s.FindIndex idx.name = none) :
    (addIndex s idx).FindIndex idx.name = some idx := by
  unfold Schema.FindIndex addIndex at *
  rw [List.find?_append, h]
  simp

theorem Table.FindColumn_name (t : Table) (n : String) (c : Column)
    (h : t.FindColumn n = some c) : c.name = n := by
  have := List.find?_some h
  simpa using this

theorem firstBadKeyType_typeName (t : Table) (cols : List String)
    (p : String × String) (h : firstBadKeyType t cols = some p) :
    p.2 = "ARRAY" ∨ p.2 = "JSON" := by
  induction cols with
  | nil => simp [firstBadKeyType] at h
  | cons c rest ih =>
    unfold firstBadKeyType at h
    split at h
    · exact ih h
    · rename_i col hf
      split at h
      · rename_i hd
        injection h with h
        subst h
        cases ht : col.type <;> rw [ht] at hd <;>
          simp [ColumnType.isDisallowedKeyType] at hd <;>
          simp [ColumnType.typeName]
      · exact ih h

theorem applyCreateIndex_ok_new (d : Dialect) (s : Schema) (ci : CreateIndexStmt)
    (s1 : Schema)
    (hok : applyCreateIndex d s ci = Except.ok s1)
    (hnew : s.FindIndex ci.name = none) :
    ∃ t, s.FindTable ci.table = some t ∧
      s1 = addIndex s (buildIndex d t ci) ∧
      ci.keys.isEmpty = false ∧
      firstMissingColumn t (keyNames ci.keys ++ ci.storing) = none ∧
      firstDuplicate (keyNames ci.keys) = none ∧
      firstStoredKeyDup (keyNames ci.keys) ci.storing = none ∧
      firstBadKeyType t (keyNames ci.keys) = none ∧
      (∀ p, ci.interleaveIn = some p → interleaveOk s p ci.table = true) := by
  unfold applyCreateIndex at hok
  split at hok
  · exact Except.noConfusion hok
  · rename_i t hT
    split at hok
    · rename_i idx0 hIdx
      rw [hnew] at hIdx
      exact Option.noConfusion hIdx
    · split at hok
      · exact Except.noConfusion hok
      · rename_i hkeys
        split at hok
        · exact Except.noConfusion hok
        · rename_i hmiss
          split at hok
          · exact Except.noConfusion hok
          · rename_i hdup
            split at hok
            · exact Except.noConfusion hok
            · rename_i hstored
              split at hok
              · exact Except.noConfusion hok
              · rename_i hbad
                split at hok
                · rename_i p hp
                  split at hok
                  · rename_i hint
                    injection hok with hok
                    exact ⟨t, hT, hok.symm, Bool.not_eq_true _ ▸ hkeys, hmiss,
                      hdup, hstored, hbad,
                      fun q hq => by rw [hp] at hq; injection hq with hq; subst hq; exact hint⟩
                  · exact Except.noConfusion hok
                · rename_i hp
                  injection hok with hok
                  exact ⟨t, hT, hok.symm, Bool.not_eq_true _ ▸ hkeys, hmiss,
                    hdup, hstored, hbad,
                    fun q hq => by rw [hp] at hq; exact Option.noConfusion hq⟩

theorem applyCreateIndex_eval (d : Dialect) (s : Schema) (ci : CreateIndexStmt)
    (t : Table)
    (hT : s.FindTable ci.table = some t)
    (hnew : s.FindIndex ci.name = none)
    (hkeys : ci.keys.isEmpty = false)
    (hmiss : firstMissingColumn t (keyNames ci.keys ++ ci.storing) = none)
    (hdup : firstDuplicate (keyNames ci.keys) = none)
    (hstored : firstStoredKeyDup (keyNames ci.keys) ci.storing = none) :
    applyCreateIndex d s ci =
      match firstBadKeyType t (keyNames ci.keys) with
      | some ctn => .error (.cannotCreateIndexOnColumn ci.name ctn.1 ctn.2)
      | none =>
        match ci.interleaveIn with
        | some p =>
          if interleaveOk s p ci.table then .ok (addIndex s (buildIndex d t ci))
          else .error (.indexInterleaveTableUnacceptable ci.name ci.table p)
        | none => .ok (addIndex s (buildIndex d t ci)) := by
  simp only [applyCreateIndex, hT, hnew, hkeys, hmiss, hdup, hstored,
    Bool.false_eq_true, if_false]

/-- Claim C1: for every successful CREATE INDEX that creates a new index,
the primary key of the constructed index-data-table is exactly the index's
declared key columns in declared order, followed by those of the source
table's primary-key columns not already among the key columns, in the
source table's own key order (a key list already holding a source PK
column does not duplicate it, and an empty source primary key contributes
nothing). -/
theorem c1_index_data_table_primary_key (d : Dialect) (s : Schema)
    (ci : CreateIndexStmt) (s1 : Schema) (t : Table) (idx : Index)
    (hok : applyCreateIndex d s ci = Except.ok s1)
    (hnew : s.FindIndex ci.name = none)
    (hT : s.FindTable ci.table = some t)
    (hidx : s1.FindIndex ci.name = some idx) :
    idx.indexDataTable.primaryKey.map KeyPart.column =
      keyNames ci.keys ++
        (t.primaryKey.filter
          (fun kp => !((keyNames ci.keys).contains kp.column))).map KeyPart.column := by
  obtain ⟨t2, hT2, hs1, -⟩ := applyCreateIndex_ok_new d s ci s1 hok hnew
  rw [hT] at hT2
  injection hT2 with hT2
  subst hT2
  subst hs1
  have hfi : (addIndex s (buildIndex d t ci)).FindIndex ci.name =
      some (buildIndex d t ci) :=
    Schema.FindIndex_addIndex s (buildIndex d t ci) hnew
  rw [hfi] at hidx
  injection hidx with hidx
  subst hidx
  show (ci.keys.map (interpretKeySpec d) ++ appendedPK t (keyNames ci.keys)).map
      KeyPart.column = _
  rw [List.map_append, List.map_map, appendedPK]
  congr 1
  apply List.map_congr_left
  intro ks _
  exact interpretKeySpec_column d ks

/-- Claim C2: every column copied into the index-data-table has a source
column on the indexed table, and its nullability is forced to false
exactly when the index is null-filtered and the column is one of the
declared key columns; otherwise (appended primary-key columns, STORING
columns, and every column of a non-null-filtered index) it retains the
source column's nullability. -/
theorem c2_data_table_nullability (d : Dialect) (s : Schema)
    (ci : CreateIndexStmt) (s1 : Schema) (t : Table) (idx : Index)
    (hok : applyCreateIndex d s ci = Except.ok s1)
    (hnew : s.FindIndex ci.name = none)
    (hT : s.FindTable ci.table = some t)
    (hidx : s1.FindIndex ci.name = some idx) :
    ∀ c ∈ idx.indexDataTable.columns, ∃ src,
      t.FindColumn c.name = some src ∧
      c.nullable = (if ci.nullFiltered && (keyNames ci.keys).contains c.name
                    then false else src.nullable) := by
  obtain ⟨t2, hT2, hs1, -, -, -, hstored, -⟩ :=
    applyCreateIndex_ok_new d s ci s1 hok hnew
  rw [hT] at hT2
  injection hT2 with hT2
  subst hT2
  subst hs1
  have hfi : (addIndex s (buildIndex d t ci)).FindIndex ci.name =
      some (buildIndex d t ci) :=
    Schema.FindIndex_addIndex s (buildIndex d t ci) hnew
  rw [hfi] at hidx
  injection hidx with hidx
  subst hidx
  intro c hc
  have hc2 : c ∈
      ((keyNames ci.keys).filterMap t.FindColumn).map (fun c0 =>
        ({ name := c0.name, type := c0.type,
           nullable := !ci.nullFiltered && c0.nullable,
           sourceColumn := some c0.name } : Column))
      ++ ((appendedPK t (keyNames ci.keys)).filterMap
            (fun kp => t.FindColumn kp.column)).map copyColumn
      ++ (ci.storing.filterMap t.FindColumn).map copyColumn := hc
  rcases List.mem_append.mp hc2 with hab | hst
  rcases List.mem_append.mp hab with hk | hp
  · -- copied declared key column
    obtain ⟨c0, hc0, rfl⟩ := List.mem_map.mp hk
    obtain ⟨n, hn, hfc⟩ := List.mem_filterMap.mp hc0
    have hname : c0.name = n := Table.FindColumn_name t n c0 hfc
    refine ⟨c0, ?_, ?_⟩
    · show t.FindColumn c0.name = some c0
      rw [hname]; exact hfc
    · have hmem : (keyNames ci.keys).contains c0.name = true := by
        rw [hname]; exact List.elem_eq_true_of_mem hn
      show (!ci.nullFiltered && c0.nullable) = _
      simp only [hmem]
      cases ci.nullFiltered <;> simp
  · -- appended source-primary-key column
    obtain ⟨c0, hc0, rfl⟩ := List.mem_map.mp hp
    obtain ⟨kp, hkp, hfc⟩ := List.mem_filterMap.mp hc0
    obtain ⟨hkp1, hkp2⟩ := List.mem_filter.mp hkp
    have hname : c0.name = kp.column := Table.FindColumn_name t kp.column c0 hfc
    have hnc : (keyNames ci.keys).contains c0.name = false := by
      rw [hname]
      cases hcc : (keyNames ci.keys).contains kp.column
      · rfl
      · exfalso; rw [hcc] at hkp2; simp at hkp2
    refine ⟨c0, ?_, ?_⟩
    · show t.FindColumn (copyColumn c0).name = some c0
      show t.FindColumn c0.name = some c0
      rw [hname]; exact hfc
    · show (copyColumn c0).nullable = _
      simp only [copyColumn, hnc]
      cases ci.nullFiltered <;> simp
  · -- stored column
    obtain ⟨c0, hc0, rfl⟩ := List.mem_map.mp hst
    obtain ⟨n, hn, hfc⟩ := List.mem_filterMap.mp hc0
    have hname : c0.name = n := Table.FindColumn_name t n c0 hfc
    have hnc : (keyNames ci.keys).contains c0.name = false := by
      rw [hname]
      have := List.find?_eq_none.mp hstored n hn
      simpa using this
    refine ⟨c0, ?_, ?_⟩
    · show t.FindColumn (copyColumn c0).name = some c0
      show t.FindColumn c0.name = some c0
      rw [hname]; exact hfc
    · show (copyColumn c0).nullable = _
      simp only [copyColumn, hnc]
      cases ci.nullFiltered <;> simp

/-- Claim C3: for every batch of DDL statements in which some statement
fails, the whole batch is rejected with that error and the live Schema is
unchanged: every FindTable and FindIndex lookup after the failed attempt
returns the same result as before it (all-or-nothing, no partial
commit). -/
theorem c3_batch_atomicity (d : Dialect) (s : Schema)
    (stmts : List DDLStatement) (e : SchemaError)
    (h : applyBatch d s stmts = Except.error e) :
    (∀ n, (updateSchema d s stmts).FindTable n = s.FindTable n) ∧
    (∀ n, (updateSchema d s stmts).FindIndex n = s.FindIndex n) := by
  unfold updateSchema
  rw [h]
  exact ⟨fun n => rfl, fun n => rfl⟩

/-- Claim C4 (amended): a CREATE INDEX with an INTERLEAVE IN clause whose
named table is neither the target table itself nor one of its ancestors
fails with IndexInterleaveTableUnacceptable naming the index, target
table and attempted parent (once the earlier validations pass); on
success the interleave clause was acceptable and the index-data-table is
interleaved under the named table with on-delete cascade. -/
theorem c4_interleave_validation (d : Dialect) (s : Schema)
    (ci : CreateIndexStmt) (t : Table) (p : String)
    (hT : s.FindTable ci.table = some t)
    (hnew : s.FindIndex ci.name = none)
    (hp : ci.interleaveIn = some p) :
    (ci.keys.isEmpty = false →
     firstMissingColumn t (keyNames ci.keys ++ ci.storing) = none →
     firstDuplicate (keyNames ci.keys) = none →
     firstStoredKeyDup (keyNames ci.keys) ci.storing = none →
     firstBadKeyType t (keyNames ci.keys) = none →
     interleaveOk s p ci.table = false →
     applyCreateIndex d s ci =
       Except.error (SchemaError.indexInterleaveTableUnacceptable ci.name ci.table p)) ∧
    (∀ s1 idx, applyCreateIndex d s ci = Except.ok s1 →
       s1.FindIndex ci.name = some idx →
       interleaveOk s p ci.table = true ∧
       idx.indexDataTable.parent = some p ∧
       idx.indexDataTable.onDelete = OnDeleteAction.cascade) := by
  constructor
  · intro hkeys hmiss hdup hstored hbad hio
    rw [applyCreateIndex_eval d s ci t hT hnew hkeys hmiss hdup hstored, hbad, hp]
    simp [hio]
  · intro s1 idx hok hidx
    obtain ⟨t2, hT2, hs1, -, -, -, -, -, hint⟩ :=
      applyCreateIndex_ok_new d s ci s1 hok hnew
    rw [hT] at hT2
    injection hT2 with hT2
    subst hT2
    subst hs1
    have hfi : (addIndex s (buildIndex d t ci)).FindIndex ci.name =
        some (buildIndex d t ci) :=
      Schema.FindIndex_addIndex s (buildIndex d t ci) hnew
    rw [hfi] at hidx
    injection hidx with hidx
    subst hidx
    refine ⟨hint p hp, ?_, ?_⟩
    · show ci.interleaveIn = some p
      exact hp
    · show (if ci.interleaveIn.isSome then OnDeleteAction.cascade
            else OnDeleteAction.noAction) = OnDeleteAction.cascade
      rw [hp]
      rfl

/-- Witness for claim C4: on the concrete CreateIndex_InvalidInterleaved
scenario (T2 not interleaved in T1), the amended theorem yields the
IndexInterleaveTableUnacceptable error with the expected fields. -/
theorem c4_witness :
    applyCreateIndex .standard sFlat ciInvalidInt =
      Except.error (SchemaError.indexInterleaveTableUnacceptable "Idx" "T2" "T1") :=
  (c4_interleave_validation .standard sFlat ciInvalidInt tT2Flat "T1"
      rfl rfl rfl).1 rfl rfl rfl rfl rfl rfl

/-- Claim C4, counterexample to the original statement: CREATE INDEX Idx2
ON T(k1), INTERLEAVE IN T succeeds even though T's chain of parents is
empty and so does not include T — matching the DropTable_WithIndex test,
which builds exactly this schema successfully. -/
theorem c4_counterexample :
    isOkE (applyBatch .standard emptySchema
      [.createTable tGStmt, .createIndex ciSelfInt]) = true ∧
    (ancestorsOf sG "T").contains "T" = false := by
  exact ⟨rfl, rfl⟩

/-- Claim C5: once the earlier validations pass, a CREATE INDEX whose key
columns contain one of a disallowed type is rejected with
CannotCreateIndexOnColumn carrying the index name, the column name and
the offending type name, which is always "ARRAY" or "JSON"; listing a
column of an array type in STORING(...) succeeds. -/
theorem c5_disallowed_key_type (d : Dialect) (s : Schema)
    (ci : CreateIndexStmt) (t : Table) (c tn : String)
    (hT : s.FindTable ci.table = some t)
    (hnew : s.FindIndex ci.name = none)
    (hkeys : ci.keys.isEmpty = false)
    (hmiss : firstMissingColumn t (keyNames ci.keys ++ ci.storing) = none)
    (hdup : firstDuplicate (keyNames ci.keys) = none)
    (hstored : firstStoredKeyDup (keyNames ci.keys) ci.storing = none)
    (hbad : firstBadKeyType t (keyNames ci.keys) = some (c, tn)) :
    applyCreateIndex d s ci =
      Except.error (SchemaError.cannotCreateIndexOnColumn ci.name c tn) ∧
    (tn = "ARRAY" ∨ tn = "JSON") ∧
    isOkE (applyBatch .standard emptySchema arrayStoringBatch) = true := by
  refine ⟨?_, ?_, rfl⟩
  · rw [applyCreateIndex_eval d s ci t hT hnew hkeys hmiss hdup hstored, hbad]
  · exact firstBadKeyType_typeName t (keyNames ci.keys) (c, tn) hbad

/-- Witness for claim C5: indexing the concrete ARRAY<INT64> column c1
produces CannotCreateIndexOnColumn("Idx", "c1", "ARRAY"). -/
theorem c5_witness :
    applyCreateIndex .standard sArr ciArrKey =
      Except.error (SchemaError.cannotCreateIndexOnColumn "Idx" "c1" "ARRAY") ∧
    ("ARRAY" = "ARRAY" ∨ "ARRAY" = "JSON") :=
  ⟨(c5_disallowed_key_type .standard sArr ciArrKey tArr "c1" "ARRAY"
      rfl rfl rfl rfl rfl rfl rfl).1,
   (c5_disallowed_key_type .standard sArr ciArrKey tArr "c1" "ARRAY"
      rfl rfl rfl rfl rfl rfl rfl).2.1⟩

/-- Claim C6: identifier resolution is uniformly case-sensitive — against
a schema with table T (columns k1, k2, c1) and index Idx1, a CREATE INDEX
on table "t" fails with TableNotFound("t"), key column "K2" fails with
IndexRefsNonExistentColumn, STORING column "C1" fails with
IndexRefsNonExistentColumn, and DROP INDEX "idx1" fails with
IndexNotFound("idx1"). -/
theorem c6_case_sensitivity :
    applyCreateIndex .standard csSchema
        { name := "Idx1", table := "t", keys := [⟨"c1", none⟩] } =
      Except.error (SchemaError.tableNotFound "t") ∧
    applyCreateIndex .standard csSchema
        { name := "Idx2", table := "T", keys := [⟨"K2", none⟩] } =
      Except.error (SchemaError.indexRefsNonExistentColumn "Idx2" "K2") ∧
    applyCreateIndex .standard csSchema
        { name := "Idx2", table := "T", keys := [⟨"k2", none⟩], storing := ["C1"] } =
      Except.error (SchemaError.indexRefsNonExistentColumn "Idx2" "C1") ∧
    applyDropIndex csSchema "idx1" false =
      Except.error (SchemaError.indexNotFound "idx1") :=
  ⟨rfl, rfl, rfl, rfl⟩

/-- Claim C7: for every successful CREATE INDEX, the key columns are the
per-part interpretation of the declared key specs, and a key part with
unspecified direction is ascending with nulls-first in the standard
dialect and ascending with nulls-last in the PostgreSQL-compatible
dialect. -/
theorem c7_default_key_ordering (d : Dialect) (s : Schema)
    (ci : CreateIndexStmt) (s1 : Schema) (t : Table) (idx : Index)
    (hok : applyCreateIndex d s ci = Except.ok s1)
    (hnew : s.FindIndex ci.name = none)
    (hT : s.FindTable ci.table = some t)
    (hidx : s1.FindIndex ci.name = some idx) :
    idx.keyColumns = ci.keys.map (interpretKeySpec d) ∧
    ∀ ks ∈ ci.keys, ks.dir = none →
      (interpretKeySpec d ks).descending = false ∧
      (interpretKeySpec d ks).nullsLast = (d == Dialect.postgresql) := by
  obtain ⟨t2, hT2, hs1, -⟩ := applyCreateIndex_ok_new d s ci s1 hok hnew
  rw [hT] at hT2
  injection hT2 with hT2
  subst hT2
  subst hs1
  have hfi : (addIndex s (buildIndex d t ci)).FindIndex ci.name =
      some (buildIndex d t ci) :=
    Schema.FindIndex_addIndex s (buildIndex d t ci) hnew
  rw [hfi] at hidx
  injection hidx with hidx
  subst hidx
  refine ⟨rfl, ?_⟩
  intro ks _ hdir
  simp [interpretKeySpec, hdir]

/-- Witness for claim C7: the concrete CreateIndex_AscKeys scenario in the
PostgreSQL-compatible dialect. -/
theorem c7_witness :
    applyCreateIndex .postgresql spg cipg = Except.ok s1pg ∧
    idxpg.keyColumns = cipg.keys.map (interpretKeySpec .postgresql) :=
  ⟨rfl,
   (c7_default_key_ordering .postgresql spg cipg s1pg tpg idxpg
      rfl rfl rfl rfl).1⟩

/-- Claim C8: DROP TABLE T fails with DropTableWithDependentIndices naming
T and the first index that has T as its indexed table or as its
index-data-table's interleave parent, and the live schema is unchanged
(no structural removal occurs). -/
theorem c8_drop_table_dependent_indices (s : Schema) (tn : String)
    (t : Table) (i : Index)
    (hT : s.FindTable tn = some t)
    (hdep : s.indexes.find? (fun i =>
        i.indexedTable == tn || i.indexDataTable.parent == some tn) = some i) :
    applyDropTable s tn =
      Except.error (SchemaError.dropTableWithDependentIndices tn i.name) ∧
    ∀ d, updateSchema d s [.dropTable tn] = s := by
  have h1 : applyDropTable s tn =
      Except.error (SchemaError.dropTableWithDependentIndices tn i.name) := by
    unfold applyDropTable
    rw [hT, hdep]
  refine ⟨h1, fun d => ?_⟩
  simp only [updateSchema, applyBatch, applyStatement, h1]

theorem applyCreateIndex_ok_cases (d : Dialect) (s : Schema)
    (ci : CreateIndexStmt) (s1 : Schema)
    (hok : applyCreateIndex d s ci = Except.ok s1) :
    (∃ t idx, s.FindTable ci.table = some t ∧ s.FindIndex ci.name = some idx ∧
       ci.ifNotExists = true ∧ s1 = s) ∨
    (s.FindIndex ci.name = none ∧
       ∃ t, s.FindTable ci.table = some t ∧
         s1 = addIndex s (buildIndex d t ci)) := by
  cases hIdx : s.FindIndex ci.name with
  | some idx =>
    left
    unfold applyCreateIndex at hok
    split at hok
    · exact Except.noConfusion hok
    · rename_i t hT
      split at hok
      · rename_i idx0 hIdx0
        split at hok
        · rename_i hine
          injection hok with hok
          exact ⟨t, idx, hT, rfl, hine, hok.symm⟩
        · exact Except.noConfusion hok
      · rename_i hIdx0
        rw [hIdx] at hIdx0
        exact Option.noConfusion hIdx0
  | none =>
    right
    obtain ⟨t, hT, hs1, -⟩ := applyCreateIndex_ok_new d s ci s1 hok hIdx
    exact ⟨rfl, t, hT, hs1⟩

/-- Claim C9: CREATE INDEX IF NOT EXISTS on a schema already containing an
index of that name succeeds as a no-op returning the same Schema (same
Index node, no new nodes), and applying the statement twice in sequence
never errors: a second application after any successful one returns the
intermediate schema unchanged. -/
theorem c9_if_not_exists_idempotent (d : Dialect) (s : Schema)
    (ci : CreateIndexStmt)
    (hine : ci.ifNotExists = true) :
    (∀ t idx, s.FindTable ci.table = some t → s.FindIndex ci.name = some idx →
       applyCreateIndex d s ci = Except.ok s) ∧
    (∀ s1, applyCreateIndex d s ci = Except.ok s1 →
       applyCreateIndex d s1 ci = Except.ok s1) := by
  have noop : ∀ (s2 : Schema) t idx, s2.FindTable ci.table = some t →
      s2.FindIndex ci.name = some idx →
      applyCreateIndex d s2 ci = Except.ok s2 := by
    intro s2 t idx hT hIdx
    unfold applyCreateIndex
    rw [hT, hIdx]
    simp [hine]
  refine ⟨noop s, fun s1 hok => ?_⟩
  rcases applyCreateIndex_ok_cases d s ci s1 hok with
    ⟨t, idx, hT, hIdx, -, hs⟩ | ⟨hnone, t, hT, hs⟩ <;> subst hs
  · exact noop s1 t idx hT hIdx
  · have hT1 : (addIndex s (buildIndex d t ci)).FindTable ci.table = some t := hT
    have hI1 : (addIndex s (buildIndex d t ci)).FindIndex ci.name =
        some (buildIndex d t ci) :=
      Schema.FindIndex_addIndex s (buildIndex d t ci) hnone
    exact noop _ t (buildIndex d t ci) hT1 hI1

/-- Witness for claim C9: CREATE INDEX IF NOT EXISTS Idx ON T(c1) applied
twice in sequence, the second application a no-op. -/
theorem c9_witness :
    applyCreateIndex .standard s9 ci9 = Except.ok s19 ∧
    applyCreateIndex .standard s19 ci9 = Except.ok s19 :=
  ⟨rfl, (c9_if_not_exists_idempotent .standard s9 ci9 rfl).2 s19 rfl⟩

/-- Claim C10: in the standard dialect an explicitly DESC key part is
interpreted as descending with nulls-last, so an explicit DESC also flips
the null ordering away from the dialect's nulls-first default; the
concrete CreateIndex_DescKeys schema shows both resulting key parts
descending and nulls-last. -/
theorem c10_desc_keys_nulls_last (ks : KeySpec)
    (h : ks.dir = some KeyDir.desc) :
    interpretKeySpec .standard ks =
      { column := ks.column, descending := true, nullsLast := true } ∧
    ((sDesc.FindIndex "Idx").map Index.keyColumns) =
      some [{ column := "c1", descending := true, nullsLast := true },
            { column := "k1", descending := true, nullsLast := true }] := by
  constructor
  · simp [interpretKeySpec, h]
  · rfl

/-- Witness for claim C10: the key spec (c1, DESC) interpreted in the
standard dialect. -/
theorem c10_witness :
    interpretKeySpec .standard ⟨"c1", some KeyDir.desc⟩ =
      { column := "c1", descending := true, nullsLast := true } :=
  (c10_desc_keys_nulls_last ⟨"c1", some KeyDir.desc⟩ rfl).1

/-- Witness for claim C1: the concrete CreateIndex scenario — index Idx1
on T(c1) over T(k1 NOT NULL, c1) PRIMARY KEY (k1) has data-table primary
key (c1, k1). -/
theorem c1_witness :
    applyCreateIndex .standard sBasic ciBasic = Except.ok s1Basic ∧
    idxBasic.indexDataTable.primaryKey.map KeyPart.column =
      keyNames ciBasic.keys ++
        (tBasic.primaryKey.filter
          (fun kp => !((keyNames ciBasic.keys).contains kp.column))).map
          KeyPart.column :=
  ⟨rfl, c1_index_data_table_primary_key .standard sBasic ciBasic s1Basic tBasic
     idxBasic rfl rfl rfl rfl⟩

/-- Witness for claim C2: in the concrete NULL_FILTERED scenario, the
copied key column c1 is non-nullable although its source is nullable. -/
theorem c2_witness :
    applyCreateIndex .standard snf cinf = Except.ok s1nf ∧
    ∃ src, tnf.FindColumn cnfKey.name = some src ∧
      cnfKey.nullable = (if cinf.nullFiltered &&
          (keyNames cinf.keys).contains cnfKey.name then false
        else src.nullable) :=
  ⟨rfl, c2_data_table_nullability .standard snf cinf s1nf tnf idxnf
     rfl rfl rfl rfl cnfKey (by decide)⟩

/-- Witness for claim C3: a batch whose DROP TABLE T statement fails
leaves FindTable("T") unchanged. -/
theorem c3_witness :
    applyBatch .standard sDesc [.dropTable "T"] =
      Except.error (SchemaError.dropTableWithDependentIndices "T" "Idx") ∧
    (updateSchema .standard sDesc [.dropTable "T"]).FindTable "T" =
      sDesc.FindTable "T" :=
  ⟨rfl,
   (c3_batch_atomicity .standard sDesc [.dropTable "T"]
      (SchemaError.dropTableWithDependentIndices "T" "Idx") rfl).1 "T"⟩

/-- Witness for claim C8: dropping the concrete table T carrying index Idx
fails with DropTableWithDependentIndices("T", "Idx") and leaves the
schema unchanged. -/
theorem c8_witness :
    applyDropTable sDesc "T" =
      Except.error (SchemaError.dropTableWithDependentIndices "T" "Idx") ∧
    updateSchema .standard sDesc [.dropTable "T"] = sDesc :=
  ⟨(c8_drop_table_dependent_indices sDesc "T" tG idxDesc rfl rfl).1,
   (c8_drop_table_dependent_indices sDesc "T" tG idxDesc rfl rfl).2 .standard⟩

end Emulator
